import Mathlib

/-!
Shallow embedding of `src/mission-control-server.js`: a Node.js telemetry
relay.  Agents POST JSON telemetry to `/telemetry`; the handler validates it,
fills a missing timestamp, broadcasts a `TELEMETRY` message to all OPEN
WebSocket clients, and answers `{status: "ok", broadcast_count: wss.clients.size}`.
New WebSocket connections receive one `SYSTEM` greeting.

Modelling conventions:
- JSON values are the inductive `Json`; numbers are modelled as `Int`
  (the program only reads numbers through JS truthiness, where `0` is the
  only falsy numeric JSON value).
- `JSON.parse(body)` is external to the handler logic; the handler is given
  its outcome as `Option Json` (`none` = the parse threw, caught by the
  handler's `catch`).
- JS property access `x.k` is `getProp`: it throws (`Except.error`) on
  `null`, yields `undefined` (`Option.none`) on non-object primitives and
  arrays, and looks the key up on objects.  JS truthiness is `Json.truthy`
  (with `undefined` falsy, `truthyOpt`).
- Mutation of the parsed record (`telemetryData.timestamp = ...`) is
  modelled by returning the record's post-state (`normalizeRecord`); the
  handler's result exposes that post-state in `IngestResult.record`.
- A WebSocket client is an `Observer` with a `ReadyState`; `wss.clients`
  is the `Registry` (a duplicate-free list of sockets).  A send hands a
  string to the transport; `broadcast` returns the list of (client, string)
  hand-offs and the registry as it stands after the call.
-/

namespace MissionControl

/-- JSON values as produced by `JSON.parse`. -/
inductive Json where
  | null : Json
  | bool : Bool → Json
  | num  : Int → Json
  | str  : String → Json
  | arr  : List Json → Json
  | obj  : List (String × Json) → Json

/-- JS truthiness of a JSON value: `null`, `false`, `0` and `""` are falsy;
every object and array is truthy. -/
def Json.truthy : Json → Bool
  | .null => false
  | .bool b => b
  | .num n => n != 0
  | .str s => s != ""
  | .arr _ => true
  | .obj _ => true

/-- Truthiness of a possibly-`undefined` value (`undefined` is falsy). -/
def truthyOpt : Option Json → Bool
  | none => false
  | some v => v.truthy

/-- Key lookup in an object's field list (first occurrence). -/
def lookupField : List (String × Json) → String → Option Json
  | [], _ => none
  | (k, v) :: fs, key => if k = key then some v else lookupField fs key

/-- JS property assignment `o[key] = v`: updates the existing entry in
place, or appends a new one. -/
def setField : List (String × Json) → String → Json → List (String × Json)
  | [], key, v => [(key, v)]
  | (k, w) :: fs, key, v =>
      if k = key then (key, v) :: fs else (k, w) :: setField fs key v

/-- JS property access `x.key`: throws a TypeError on `null`
(`Except.error`), is `undefined` on other primitives and on arrays, and is
a field lookup on objects. -/
def getProp : Json → String → Except Unit (Option Json)
  | .null, _ => .error ()
  | .obj fs, key => .ok (lookupField fs key)
  | _, _ => .ok none

mutual
/-- Model of `JSON.stringify` (object keys in insertion order, the only
escapes this program's fixed strings need). -/
def Json.stringify : Json → String
  | .null => "null"
  | .bool b => if b then "true" else "false"
  | .num n => toString n
  | .str s => "\"" ++ s ++ "\""
  | .arr xs => "[" ++ stringifyArr xs ++ "]"
  | .obj fs => "\x7b" ++ stringifyObj fs ++ "\x7d"

def stringifyArr : List Json → String
  | [] => ""
  | [x] => x.stringify
  | x :: xs => x.stringify ++ "," ++ stringifyArr xs

def stringifyObj : List (String × Json) → String
  | [] => ""
  | [(k, v)] => "\"" ++ k ++ "\":" ++ v.stringify
  | (k, v) :: fs => "\"" ++ k ++ "\":" ++ v.stringify ++ "," ++ stringifyObj fs
end

/-- `ws` readyState of a client socket. -/
inductive ReadyState where
  | CONNECTING : ReadyState
  | OPEN : ReadyState
  | CLOSING : ReadyState
  | CLOSED : ReadyState
deriving DecidableEq

/-- A WebSocket client as the broadcast loop sees it: an identity (the
underlying socket) and its current readyState. -/
structure Observer where
  id : Nat
  readyState : ReadyState
deriving DecidableEq

/-- `wss.clients`: the set of currently registered client sockets. -/
abbrev Registry := List Observer

/-- The wire message built by `broadcast`: `{type: 'TELEMETRY', payload: data}`. -/
def telemetryMessage (data : Json) : Json :=
  .obj [("type", .str "TELEMETRY"), ("payload", data)]

/-- Outcome of one `broadcast(data)` call: the (client, serialized text)
pairs handed to the transport, and `wss.clients` as it stands after the
call. -/
structure BroadcastResult where
  sends : List (Nat × String)
  registry : Registry

/-- `broadcast(data)` (lines 136-147): serializes the TELEMETRY message
once, then `wss.clients.forEach`: sends the same string to every client
whose `readyState === WebSocket.OPEN`.  Nothing in the loop catches errors
or modifies `wss.clients`, so the registry after the call is the registry
before it. -/
def broadcast (registry : Registry) (data : Json) : BroadcastResult :=
  let message := (telemetryMessage data).stringify
  { sends :=
      (registry.filter (fun client => client.readyState = .OPEN)).map
        (fun client => (client.id, message)),
    registry := registry }

/-- An HTTP response: status code and the JSON value passed to
`JSON.stringify` in `res.end(...)`. -/
structure HttpResponse where
  statusCode : Nat
  body : Json

/-- Body of the `{error: 'Invalid JSON'}` response. -/
def invalidJsonBody : Json := .obj [("error", .str "Invalid JSON")]

/-- Body of the schema-violation response. -/
def invalidSchemaBody : Json :=
  .obj [("error", .str "Invalid schema: agentId and status are required.")]

/-- `if (!telemetryData.agentId || !telemetryData.status)` (line 78):
`Except.error` when the property access throws (parsed value `null`),
otherwise whether the validation passes (both fields truthy). -/
def schemaCheck (telemetryData : Json) : Except Unit Bool :=
  match getProp telemetryData "agentId" with
  | .error e => .error e
  | .ok a =>
      if !truthyOpt a then .ok false
      else
        match getProp telemetryData "status" with
        | .error e => .error e
        | .ok s => .ok (truthyOpt s)

/-- Lines 84-87: `if (!telemetryData.timestamp) telemetryData.timestamp =
new Date().toISOString();` — the record's field list after the conditional
in-place assignment, `now` standing for `new Date().toISOString()`. -/
def normalizeRecord (fields : List (String × Json)) (now : String) :
    List (String × Json) :=
  if truthyOpt (lookupField fields "timestamp") then fields
  else setField fields "timestamp" (.str now)

/-- The parsed value after the timestamp fill.  The handler reaches this
point only when `schemaCheck` passed, which forces an object; other shapes
are returned unchanged. -/
def normalizeJson : Json → String → Json
  | .obj fields, now => .obj (normalizeRecord fields now)
  | d, _ => d

/-- Everything observable about one POST `/telemetry` request:
the HTTP response, the argument of the `broadcast` call (`none` when no
broadcast happened), the transport hand-offs, `wss.clients` afterwards,
and the post-state of the parsed `telemetryData` object (`none` when the
parse threw). -/
structure IngestResult where
  response : HttpResponse
  broadcastArg : Option Json
  sends : List (Nat × String)
  registry : Registry
  record : Option Json

/-- The POST `/telemetry` handler (lines 73-101), given the outcome of
`JSON.parse(body)`.  A parse throw and a TypeError from property access on
`null` both land in the same `catch`, answering 400 `{error: 'Invalid
JSON'}`; a failed schema check answers 400 with `invalidSchemaBody`; a
successful request broadcasts the (mutated) record and answers 200 with
`broadcast_count: wss.clients.size`. -/
def handleTelemetry (registry : Registry) (parsed : Option Json)
    (now : String) : IngestResult :=
  match parsed with
  | none =>
      { response := ⟨400, invalidJsonBody⟩, broadcastArg := none,
        sends := [], registry := registry, record := none }
  | some telemetryData =>
      match schemaCheck telemetryData with
      | .error _ =>
          { response := ⟨400, invalidJsonBody⟩, broadcastArg := none,
            sends := [], registry := registry, record := some telemetryData }
      | .ok false =>
          { response := ⟨400, invalidSchemaBody⟩, broadcastArg := none,
            sends := [], registry := registry, record := some telemetryData }
      | .ok true =>
          let envelope := normalizeJson telemetryData now
          let result := broadcast registry envelope
          { response :=
              ⟨200, .obj [("status", .str "ok"),
                          ("broadcast_count", .num result.registry.length)]⟩,
            broadcastArg := some envelope,
            sends := result.sends,
            registry := result.registry,
            record := some envelope }

/-- The `SYSTEM` greeting sent on connection (lines 116-120). -/
def greeting (now : String) : Json :=
  .obj [("type", .str "SYSTEM"),
        ("message", .str "Connected to Mission Control Backend"),
        ("timestamp", .str now)]

/-- A connected observer together with the messages sent to it, in order. -/
structure TObserver where
  id : Nat
  readyState : ReadyState
  inbox : List Json

/-- Whole-server state for the event-trace model: the id counter for fresh
sockets, `wss.clients` (`live`), and sockets the `ws` library already
removed on close (`gone`, kept for their message history). -/
structure ServerState where
  nextId : Nat
  live : List TObserver
  gone : List TObserver

/-- The server before any connection or request. -/
def startState : ServerState := ⟨0, [], []⟩

/-- Externally triggered events: a new WebSocket connection, a POST
`/telemetry` (with its parse outcome and the server clock), a client
disconnect. -/
inductive Event where
  | connect (now : String) : Event
  | ingest (parsed : Option Json) (now : String) : Event
  | close (id : Nat) : Event

/-- The envelope a given ingest call hands to `broadcast`, if any
(independent of the client set). -/
def ingestEnvelope (parsed : Option Json) (now : String) : Option Json :=
  (handleTelemetry [] parsed now).broadcastArg

/-- One delivery attempt of a broadcast: only an OPEN observer receives
the message. -/
def deliver (m : Json) (o : TObserver) : TObserver :=
  if o.readyState = .OPEN then { o with inbox := o.inbox ++ [m] } else o

/-- State transition for one event.  `connect` registers a fresh OPEN
socket and sends it the greeting (lines 113-121); `ingest` runs the
telemetry handler and fans the TELEMETRY message out to OPEN clients;
`close` is the `ws` library removing the socket from `wss.clients` (the
program's own close handler only logs). -/
def step (st : ServerState) : Event → ServerState
  | .connect now =>
      { st with
        nextId := st.nextId + 1,
        live := st.live ++ [⟨st.nextId, .OPEN, [greeting now]⟩] }
  | .ingest parsed now =>
      match ingestEnvelope parsed now with
      | some env =>
          { st with live := st.live.map (deliver (telemetryMessage env)) }
      | none => st
  | .close i =>
      { st with
        live := st.live.filter (fun o => o.id ≠ i),
        gone := st.gone ++
          (st.live.filter (fun o => o.id = i)).map
            (fun o => { o with readyState := .CLOSED }) }

/-- Run a list of events from the start state. -/
def run (events : List Event) : ServerState :=
  events.foldl step startState

/-- A message of the greeting's shape `{type: 'SYSTEM', message, timestamp}`. -/
def isSystemShape : Json → Bool
  | .obj [("type", .str t), ("message", _), ("timestamp", _)] => t = "SYSTEM"
  | _ => false

/-- A message of the broadcast wrapper's shape `{type: 'TELEMETRY', payload}`. -/
def isTelemetryShape : Json → Bool
  | .obj [("type", .str t), ("payload", _)] => t = "TELEMETRY"
  | _ => false

end MissionControl

namespace MissionControl

/-! ### Helper lemmas -/

theorem lookupField_setField_self (fs : List (String × Json)) (key : String)
    (v : Json) : lookupField (setField fs key v) key = some v := by
  induction fs with
  | nil => simp [setField, lookupField]
  | cons p fs ih =>
      obtain ⟨k, w⟩ := p
      by_cases h : k = key
      · simp [setField, h, lookupField]
      · simp [setField, h, lookupField, ih]

theorem lookupField_setField_ne (fs : List (String × Json)) (key k : String)
    (v : Json) (h : k ≠ key) :
    lookupField (setField fs key v) k = lookupField fs k := by
  have hk : key ≠ k := Ne.symm h
  induction fs with
  | nil => simp [setField, lookupField, hk]
  | cons p fs ih =>
      obtain ⟨k', w⟩ := p
      by_cases hkey : k' = key
      · subst hkey
        simp [setField, lookupField, hk]
      · simp only [setField, if_neg hkey, lookupField, ih]

/-- The branch of `handleTelemetry` is decided by `schemaCheck` alone; this
spells out the three rejection observations on the schema-failure branch. -/
theorem handleTelemetry_schema_fail (registry : Registry) (d : Json)
    (now : String) (h : schemaCheck d = .ok false) :
    handleTelemetry registry (some d) now =
      { response := ⟨400, invalidSchemaBody⟩, broadcastArg := none,
        sends := [], registry := registry, record := some d } := by
  simp [handleTelemetry, h]

end MissionControl

namespace MissionControl

/-! ### C4 -/

/-- C4: when `JSON.parse` fails, the handler answers status 400 with body
`{error: "Invalid JSON"}` (serialized exactly to that text), performs no
broadcast (no broadcast call, no transport hand-off), and leaves the client
set untouched; the handler is a total function, so the failure cannot crash
the process. -/
theorem ingest_invalid_json (registry : Registry) (now : String) :
    (handleTelemetry registry none now).response.statusCode = 400 ∧
    (handleTelemetry registry none now).response.body = invalidJsonBody ∧
    (handleTelemetry registry none now).response.body.stringify =
      "\x7b\"error\":\"Invalid JSON\"\x7d" ∧
    (handleTelemetry registry none now).broadcastArg = none ∧
    (handleTelemetry registry none now).sends = [] ∧
    (handleTelemetry registry none now).registry = registry :=
  ⟨rfl, rfl, by simp [handleTelemetry, invalidJsonBody, Json.stringify, stringifyObj],
   rfl, rfl, rfl⟩

/-! ### C3 -/

/-- C3 counterexample: the body `"null"` parses (to JSON `null`), and its
`agentId` and `status` fields are missing, yet the response body is
`{error: "Invalid JSON"}` — not the schema-violation body the claim
requires — because `telemetryData.agentId` throws a TypeError on `null`
and lands in the handler's `catch`. -/
theorem null_body_not_schema_error :
    getProp Json.null "agentId" = .error () ∧
    (handleTelemetry [] (some Json.null) "t").response = ⟨400, invalidJsonBody⟩ ∧
    invalidJsonBody ≠ invalidSchemaBody :=
  ⟨rfl, rfl, by simp [invalidJsonBody, invalidSchemaBody]⟩

/-- C3 (amended): for every parseable submission other than JSON `null`
whose `agentId` or `status` is missing (`undefined`) or the empty string,
the handler answers status 400 with exactly the schema-violation body and
no broadcast occurs.  (For the `null` submission, the property access
throws and the request is answered 400 `{error: "Invalid JSON"}` instead —
still 4xx, still no broadcast.) -/
theorem ingest_schema_violation (registry : Registry) (d : Json) (now : String)
    (hnull : d ≠ Json.null)
    (h : getProp d "agentId" = .ok none ∨ getProp d "agentId" = .ok (some (.str "")) ∨
         getProp d "status" = .ok none ∨ getProp d "status" = .ok (some (.str ""))) :
    (handleTelemetry registry (some d) now).response.statusCode = 400 ∧
    (handleTelemetry registry (some d) now).response.body = invalidSchemaBody ∧
    (handleTelemetry registry (some d) now).broadcastArg = none ∧
    (handleTelemetry registry (some d) now).sends = [] := by
  have hfail : schemaCheck d = .ok false := by
    match d, hnull with
    | .obj fs, _ =>
        simp only [getProp, Except.ok.injEq] at h
        rcases h with h | h | h | h
        · simp [schemaCheck, getProp, h, truthyOpt]
        · simp [schemaCheck, getProp, h, truthyOpt, Json.truthy]
        · simp only [schemaCheck, getProp]
          cases ha : truthyOpt (lookupField fs "agentId") <;>
            simp [h, truthyOpt]
        · simp only [schemaCheck, getProp]
          cases ha : truthyOpt (lookupField fs "agentId") <;>
            simp [h, truthyOpt, Json.truthy]
    | .bool b, _ => simp [schemaCheck, getProp, truthyOpt]
    | .num n, _ => simp [schemaCheck, getProp, truthyOpt]
    | .str s, _ => simp [schemaCheck, getProp, truthyOpt]
    | .arr xs, _ => simp [schemaCheck, getProp, truthyOpt]
  rw [handleTelemetry_schema_fail registry d now hfail]
  exact ⟨rfl, rfl, rfl, rfl⟩

/-- C3 witness: the spec's own scenario `{"status":"working"}`. -/
theorem ingest_schema_violation_witness :
    (Json.obj [("status", Json.str "working")] ≠ Json.null ∧
     getProp (Json.obj [("status", Json.str "working")]) "agentId" = .ok none) ∧
    ((handleTelemetry [] (some (Json.obj [("status", Json.str "working")])) "t").response.statusCode = 400 ∧
     (handleTelemetry [] (some (Json.obj [("status", Json.str "working")])) "t").response.body = invalidSchemaBody ∧
     (handleTelemetry [] (some (Json.obj [("status", Json.str "working")])) "t").broadcastArg = none ∧
     (handleTelemetry [] (some (Json.obj [("status", Json.str "working")])) "t").sends = []) :=
  ⟨⟨by simp, rfl⟩,
   ingest_schema_violation [] (Json.obj [("status", Json.str "working")]) "t"
     (by simp) (Or.inl rfl)⟩

end MissionControl

namespace MissionControl

/-! ### C10 -/

/-- C10: a present but falsy non-string `agentId` or `status` (the number
0, `false`, or `null`) is rejected as a schema violation with no broadcast,
the same observable outcome as a missing field — line 78 is a truthiness
check, not a string-emptiness check. -/
theorem falsy_field_rejected (registry : Registry)
    (fields : List (String × Json)) (now : String)
    (h : (∃ v, lookupField fields "agentId" = some v ∧
            (v = .num 0 ∨ v = .bool false ∨ v = .null)) ∨
         (∃ v, lookupField fields "status" = some v ∧
            (v = .num 0 ∨ v = .bool false ∨ v = .null))) :
    (handleTelemetry registry (some (.obj fields)) now).response.statusCode = 400 ∧
    (handleTelemetry registry (some (.obj fields)) now).response.body = invalidSchemaBody ∧
    (handleTelemetry registry (some (.obj fields)) now).broadcastArg = none ∧
    (handleTelemetry registry (some (.obj fields)) now).sends = [] := by
  have hfail : schemaCheck (Json.obj fields) = .ok false := by
    rcases h with ⟨v, hv, hfv⟩ | ⟨v, hv, hfv⟩
    · have hfa : truthyOpt (lookupField fields "agentId") = false := by
        rw [hv]; rcases hfv with rfl | rfl | rfl <;> simp [truthyOpt, Json.truthy]
      simp [schemaCheck, getProp, hfa]
    · have hfs : truthyOpt (lookupField fields "status") = false := by
        rw [hv]; rcases hfv with rfl | rfl | rfl <;> simp [truthyOpt, Json.truthy]
      simp only [schemaCheck, getProp]
      cases ha : truthyOpt (lookupField fields "agentId") <;> simp [hfs]
  rw [handleTelemetry_schema_fail registry _ now hfail]
  exact ⟨rfl, rfl, rfl, rfl⟩

/-- C10 witness: `{"agentId": 0, "status": "working"}` is rejected. -/
theorem falsy_field_rejected_witness :
    (lookupField [("agentId", Json.num 0), ("status", Json.str "working")] "agentId"
       = some (Json.num 0)) ∧
    ((handleTelemetry [] (some (.obj [("agentId", Json.num 0), ("status", Json.str "working")])) "t").response.statusCode = 400 ∧
     (handleTelemetry [] (some (.obj [("agentId", Json.num 0), ("status", Json.str "working")])) "t").response.body = invalidSchemaBody ∧
     (handleTelemetry [] (some (.obj [("agentId", Json.num 0), ("status", Json.str "working")])) "t").broadcastArg = none ∧
     (handleTelemetry [] (some (.obj [("agentId", Json.num 0), ("status", Json.str "working")])) "t").sends = []) :=
  ⟨rfl, falsy_field_rejected [] [("agentId", Json.num 0), ("status", Json.str "working")]
     "t" (Or.inl ⟨Json.num 0, rfl, Or.inl rfl⟩)⟩

/-! ### C5 -/

/-- C5 counterexample: a supplied `timestamp` of `0` is present and is not
the empty string, yet the normalizer does not pass it through: it is
overwritten with the server time, refuting "fills ... exactly when the
input timestamp is absent or empty". -/
theorem timestamp_zero_overwritten :
    lookupField [("agentId", Json.str "a"), ("status", Json.str "s"),
        ("timestamp", Json.num 0)] "timestamp" = some (Json.num 0) ∧
    Json.num 0 ≠ Json.str "" ∧
    lookupField (normalizeRecord [("agentId", Json.str "a"), ("status", Json.str "s"),
        ("timestamp", Json.num 0)] "T") "timestamp" = some (Json.str "T") ∧
    Json.str "T" ≠ Json.num 0 :=
  ⟨rfl, by simp, rfl, by simp⟩

/-- C5 (amended): the normalizer fills `timestamp` with the server time
exactly when the supplied timestamp is falsy (absent, `null`, `false`,
`0`, or the empty string); a truthy timestamp leaves the record untouched
(passed through unchanged and unvalidated), and no timestamp value ever
causes a rejection — a record with truthy `agentId` and `status` always
gets the 200 response. -/
theorem normalize_timestamp (fields : List (String × Json)) (now : String) :
    (truthyOpt (lookupField fields "timestamp") = true →
       normalizeRecord fields now = fields) ∧
    (truthyOpt (lookupField fields "timestamp") = false →
       lookupField (normalizeRecord fields now) "timestamp" = some (.str now)) ∧
    (∀ registry : Registry,
       truthyOpt (lookupField fields "agentId") = true →
       truthyOpt (lookupField fields "status") = true →
       (handleTelemetry registry (some (.obj fields)) now).response.statusCode = 200) := by
  refine ⟨fun h => by simp [normalizeRecord, h], fun h => ?_,
    fun registry ha hs => ?_⟩
  · simp [normalizeRecord, h, lookupField_setField_self]
  · have hok : schemaCheck (Json.obj fields) = .ok true := by
      simp [schemaCheck, getProp, ha, hs]
    simp [handleTelemetry, hok]

/-- C5 witness: a truthy timestamp is kept; a missing one is filled and
still accepted. -/
theorem normalize_timestamp_witness :
    (truthyOpt (lookupField [("agentId", Json.str "a"), ("status", Json.str "s"),
        ("timestamp", Json.str "junk")] "timestamp") = true ∧
     normalizeRecord [("agentId", Json.str "a"), ("status", Json.str "s"),
        ("timestamp", Json.str "junk")] "T" =
       [("agentId", Json.str "a"), ("status", Json.str "s"),
        ("timestamp", Json.str "junk")]) ∧
    (truthyOpt (lookupField [("agentId", Json.str "a"), ("status", Json.str "s")]
        "timestamp") = false ∧
     lookupField (normalizeRecord [("agentId", Json.str "a"),
        ("status", Json.str "s")] "T") "timestamp" = some (Json.str "T")) ∧
    (truthyOpt (lookupField [("agentId", Json.str "a"), ("status", Json.str "s")]
        "agentId") = true ∧
     truthyOpt (lookupField [("agentId", Json.str "a"), ("status", Json.str "s")]
        "status") = true ∧
     (handleTelemetry [] (some (.obj [("agentId", Json.str "a"),
        ("status", Json.str "s")])) "T").response.statusCode = 200) :=
  ⟨⟨rfl, (normalize_timestamp [("agentId", Json.str "a"), ("status", Json.str "s"),
      ("timestamp", Json.str "junk")] "T").1 rfl⟩,
   ⟨rfl, (normalize_timestamp [("agentId", Json.str "a"),
      ("status", Json.str "s")] "T").2.1 rfl⟩,
   ⟨rfl, rfl, (normalize_timestamp [("agentId", Json.str "a"),
      ("status", Json.str "s")] "T").2.2 [] rfl rfl⟩⟩

/-! ### C8 -/

/-- C8 counterexample: for a record arriving without a timestamp, line 86
assigns the server time into the parsed record itself: after normalization
the record differs from the caller-supplied one, and the broadcast
envelope is that same mutated record, not a separate copy — the completion
does not appear "only in the returned Envelope". -/
theorem normalize_mutates_record :
    normalizeRecord [("agentId", Json.str "a"), ("status", Json.str "s")] "T" ≠
      [("agentId", Json.str "a"), ("status", Json.str "s")] ∧
    (handleTelemetry [] (some (Json.obj [("agentId", Json.str "a"),
        ("status", Json.str "s")])) "T").record ≠
      some (Json.obj [("agentId", Json.str "a"), ("status", Json.str "s")]) ∧
    (handleTelemetry [] (some (Json.obj [("agentId", Json.str "a"),
        ("status", Json.str "s")])) "T").record =
      (handleTelemetry [] (some (Json.obj [("agentId", Json.str "a"),
        ("status", Json.str "s")])) "T").broadcastArg := by
  refine ⟨?_, ?_, rfl⟩
  · show [("agentId", Json.str "a"), ("status", Json.str "s"),
      ("timestamp", Json.str "T")] ≠ [("agentId", Json.str "a"), ("status", Json.str "s")]
    simp
  · show some (Json.obj [("agentId", Json.str "a"), ("status", Json.str "s"),
      ("timestamp", Json.str "T")]) ≠
        some (Json.obj [("agentId", Json.str "a"), ("status", Json.str "s")])
    simp

/-- C8 (amended): normalization mutates the caller-supplied record in
place exactly when it fills a falsy timestamp; the mutation touches no
field other than `timestamp` (in particular the `metrics` and `logs`
entries are untouched and stay shared), and on the success path the
broadcast envelope is exactly the (possibly mutated) record — there is no
separate Envelope copy. -/
theorem normalize_mutation (fields : List (String × Json)) (now : String)
    (hn : now ≠ "") :
    (normalizeRecord fields now = fields ↔
       truthyOpt (lookupField fields "timestamp") = true) ∧
    (∀ k, k ≠ "timestamp" →
       lookupField (normalizeRecord fields now) k = lookupField fields k) ∧
    (∀ registry : Registry,
       truthyOpt (lookupField fields "agentId") = true →
       truthyOpt (lookupField fields "status") = true →
       (handleTelemetry registry (some (.obj fields)) now).record =
         some (Json.obj (normalizeRecord fields now)) ∧
       (handleTelemetry registry (some (.obj fields)) now).broadcastArg =
         (handleTelemetry registry (some (.obj fields)) now).record) := by
  refine ⟨⟨fun heq => ?_, fun h => by simp [normalizeRecord, h]⟩,
    fun k hk => ?_, fun registry ha hs => ?_⟩
  · by_contra htr
    have htr' : truthyOpt (lookupField fields "timestamp") = false := by
      cases h : truthyOpt (lookupField fields "timestamp")
      · rfl
      · exact absurd h htr
    have h1 : normalizeRecord fields now = setField fields "timestamp" (.str now) := by
      simp [normalizeRecord, htr']
    have h2 : lookupField fields "timestamp" = some (.str now) := by
      rw [← heq, h1, lookupField_setField_self]
    rw [h2] at htr'
    simp [truthyOpt, Json.truthy] at htr'
    exact hn htr'
  · cases h : truthyOpt (lookupField fields "timestamp")
    · simp [normalizeRecord, h, lookupField_setField_ne fields "timestamp" k (.str now) hk]
    · simp [normalizeRecord, h]
  · have hok : schemaCheck (Json.obj fields) = .ok true := by
      simp [schemaCheck, getProp, ha, hs]
    simp [handleTelemetry, hok, normalizeJson]

/-- C8 amended-claim witness at a concrete record and clock. -/
theorem normalize_mutation_witness :
    ("T" ≠ "") ∧
    ((normalizeRecord [("agentId", Json.str "a"), ("status", Json.str "s")] "T" =
        [("agentId", Json.str "a"), ("status", Json.str "s")] ↔
       truthyOpt (lookupField [("agentId", Json.str "a"), ("status", Json.str "s")]
         "timestamp") = true) ∧
     (∀ k, k ≠ "timestamp" →
        lookupField (normalizeRecord [("agentId", Json.str "a"),
          ("status", Json.str "s")] "T") k =
        lookupField [("agentId", Json.str "a"), ("status", Json.str "s")] k) ∧
     (∀ registry : Registry,
        truthyOpt (lookupField [("agentId", Json.str "a"), ("status", Json.str "s")]
          "agentId") = true →
        truthyOpt (lookupField [("agentId", Json.str "a"), ("status", Json.str "s")]
          "status") = true →
        (handleTelemetry registry (some (.obj [("agentId", Json.str "a"),
           ("status", Json.str "s")])) "T").record =
          some (Json.obj (normalizeRecord [("agentId", Json.str "a"),
           ("status", Json.str "s")] "T")) ∧
        (handleTelemetry registry (some (.obj [("agentId", Json.str "a"),
           ("status", Json.str "s")])) "T").broadcastArg =
          (handleTelemetry registry (some (.obj [("agentId", Json.str "a"),
           ("status", Json.str "s")])) "T").record)) :=
  ⟨by simp,
   normalize_mutation [("agentId", Json.str "a"), ("status", Json.str "s")] "T" (by simp)⟩

end MissionControl

namespace MissionControl

/-! ### More helper lemmas -/

theorem truthy_ne_empty {v : Json} (h : v.truthy = true) : v ≠ .str "" := by
  intro heq
  subst heq
  simp [Json.truthy] at h

theorem lookupField_normalizeRecord_ne (fields : List (String × Json))
    (now : String) (k : String) (hk : k ≠ "timestamp") :
    lookupField (normalizeRecord fields now) k = lookupField fields k := by
  cases h : truthyOpt (lookupField fields "timestamp") with
  | false =>
      simp [normalizeRecord, h, lookupField_setField_ne fields "timestamp" k _ hk]
  | true => simp [normalizeRecord, h]

theorem lookupField_normalizeRecord_timestamp (fields : List (String × Json))
    (now : String) (hn : now ≠ "") :
    ∃ t, lookupField (normalizeRecord fields now) "timestamp" = some t ∧
      t.truthy = true := by
  cases h : truthyOpt (lookupField fields "timestamp") with
  | false =>
      refine ⟨.str now, ?_, by simp [Json.truthy, hn]⟩
      simp [normalizeRecord, h, lookupField_setField_self]
  | true =>
      cases hl : lookupField fields "timestamp" with
      | none => rw [hl] at h; simp [truthyOpt] at h
      | some t =>
          refine ⟨t, ?_, ?_⟩
          · unfold normalizeRecord
            rw [h]
            simp [hl]
          · rw [hl] at h
            simpa [truthyOpt] using h

theorem schemaCheck_ok_true {d : Json} (h : schemaCheck d = .ok true) :
    ∃ fs, d = .obj fs ∧ truthyOpt (lookupField fs "agentId") = true ∧
      truthyOpt (lookupField fs "status") = true := by
  match d with
  | .null => simp [schemaCheck, getProp] at h
  | .bool b => simp [schemaCheck, getProp, truthyOpt] at h
  | .num n => simp [schemaCheck, getProp, truthyOpt] at h
  | .str s => simp [schemaCheck, getProp, truthyOpt] at h
  | .arr xs => simp [schemaCheck, getProp, truthyOpt] at h
  | .obj fs =>
      simp only [schemaCheck, getProp] at h
      cases ha : truthyOpt (lookupField fs "agentId") with
      | false => rw [ha] at h; simp at h
      | true =>
          rw [ha] at h
          simp at h
          exact ⟨fs, rfl, ha, h⟩

theorem countP_id_eq_of_nodup (l : List Observer) (o : Observer)
    (q : Observer → Bool) (hnd : (l.map Observer.id).Nodup) (ho : o ∈ l) :
    l.countP (fun c => c.id == o.id && q c) = if q o then 1 else 0 := by
  induction l with
  | nil => cases ho
  | cons c l ih =>
      rw [List.map_cons, List.nodup_cons] at hnd
      obtain ⟨hc, hnd'⟩ := hnd
      rcases List.mem_cons.mp ho with rfl | ho'
      · have h0 : l.countP (fun a => a.id == o.id && q a) = 0 := by
          rw [List.countP_eq_zero]
          intro a ha hq
          simp only [Bool.and_eq_true, beq_iff_eq] at hq
          exact hc (hq.1 ▸ List.mem_map_of_mem Observer.id ha)
        rw [List.countP_cons, h0]
        simp
      · have hco : ¬c.id = o.id := by
          intro he
          exact hc (he ▸ List.mem_map_of_mem Observer.id ho')
        rw [List.countP_cons, ih hnd' ho']
        simp [hco]

end MissionControl

namespace MissionControl

/-! ### C1 -/

/-- C1 counterexample: with one registered observer in CLOSING state, a
valid submission is answered with `broadcast_count: 1` although the
message was handed to the transport for zero observers — the response
reports `wss.clients.size`, not the delivered count. -/
theorem broadcast_count_overcounts :
    (handleTelemetry [⟨0, .CLOSING⟩] (some (.obj [("agentId", Json.str "a"),
        ("status", Json.str "s")])) "T").response =
      ⟨200, .obj [("status", .str "ok"), ("broadcast_count", .num 1)]⟩ ∧
    (handleTelemetry [⟨0, .CLOSING⟩] (some (.obj [("agentId", Json.str "a"),
        ("status", Json.str "s")])) "T").sends = [] ∧
    (1 : Int) ≠ 0 :=
  ⟨rfl, rfl, by simp⟩

/-- C1 (amended): on every successful ingest the response body is
`{status: "ok", broadcast_count: wss.clients.size}` — the number of
currently registered observers — which equals the number of observers the
TELEMETRY message was handed to the transport for exactly when every
registered observer is OPEN. -/
theorem broadcast_count_is_registry_size (registry : Registry)
    (parsed : Option Json) (now : String)
    (h : (handleTelemetry registry parsed now).response.statusCode = 200) :
    (handleTelemetry registry parsed now).response.body =
      .obj [("status", .str "ok"), ("broadcast_count", .num registry.length)] ∧
    ((∀ o ∈ registry, o.readyState = .OPEN) →
       (handleTelemetry registry parsed now).sends.length = registry.length) := by
  cases parsed with
  | none => simp [handleTelemetry] at h
  | some d =>
      cases hc : schemaCheck d with
      | error e => simp [handleTelemetry, hc] at h
      | ok b =>
          cases b with
          | false => simp [handleTelemetry, hc] at h
          | true =>
              constructor
              · simp [handleTelemetry, hc, broadcast]
              · intro hall
                have hf : registry.filter (fun c => c.readyState = .OPEN) = registry :=
                  List.filter_eq_self.mpr (fun o ho => by simp [hall o ho])
                simp [handleTelemetry, hc, broadcast, hf]

/-- C1 amended-claim witness: one OPEN observer, count 1 = 1 delivery. -/
theorem broadcast_count_is_registry_size_witness :
    ((handleTelemetry [⟨0, .OPEN⟩] (some (.obj [("agentId", Json.str "a"),
        ("status", Json.str "s")])) "T").response.statusCode = 200) ∧
    ((handleTelemetry [⟨0, .OPEN⟩] (some (.obj [("agentId", Json.str "a"),
        ("status", Json.str "s")])) "T").response.body =
       .obj [("status", .str "ok"),
             ("broadcast_count", .num ([⟨0, .OPEN⟩] : Registry).length)] ∧
     ((∀ o ∈ ([⟨0, .OPEN⟩] : Registry), o.readyState = .OPEN) →
        (handleTelemetry [⟨0, .OPEN⟩] (some (.obj [("agentId", Json.str "a"),
          ("status", Json.str "s")])) "T").sends.length =
          ([⟨0, .OPEN⟩] : Registry).length)) :=
  ⟨rfl, broadcast_count_is_registry_size [⟨0, .OPEN⟩]
     (some (.obj [("agentId", Json.str "a"), ("status", Json.str "s")])) "T" rfl⟩

/-! ### C2 -/

/-- C2 counterexample: a broadcast over a registry holding a CLOSED (broken)
observer removes nothing: `wss.clients` is identical after the call and the
broken observer is still registered — refuting "that observer is marked
CLOSED and removed from the Observer Registry" (there is no catch and no
removal in the loop); the OPEN observer still got its send. -/
theorem broadcast_keeps_broken_observer :
    (broadcast [⟨0, .CLOSED⟩, ⟨1, .OPEN⟩] (Json.obj [])).registry =
      [⟨0, .CLOSED⟩, ⟨1, .OPEN⟩] ∧
    (⟨0, .CLOSED⟩ : Observer) ∈ (broadcast [⟨0, .CLOSED⟩, ⟨1, .OPEN⟩] (Json.obj [])).registry ∧
    (broadcast [⟨0, .CLOSED⟩, ⟨1, .OPEN⟩] (Json.obj [])).sends =
      [(1, (telemetryMessage (Json.obj [])).stringify)] :=
  ⟨rfl, by decide, rfl⟩

/-- C2 (amended): an observer whose readyState is not OPEN is simply
skipped by the broadcast loop — it receives nothing, but it is neither
caught-and-marked nor removed: the registry after the broadcast is exactly
the registry before, with the broken observer still in it — while every
OPEN observer is still handed the message, regardless of the other
observers' states. -/
theorem broadcast_isolation (registry : Registry) (data : Json)
    (broken : Observer) (hb : broken ∈ registry)
    (hs : broken.readyState ≠ .OPEN)
    (hnd : (registry.map Observer.id).Nodup) :
    (broadcast registry data).registry = registry ∧
    broken ∈ (broadcast registry data).registry ∧
    (∀ q ∈ (broadcast registry data).sends, q.1 ≠ broken.id) ∧
    (∀ o ∈ registry, o.readyState = .OPEN →
       (o.id, (telemetryMessage data).stringify) ∈ (broadcast registry data).sends) := by
  refine ⟨rfl, hb, ?_, ?_⟩
  · intro q hq
    simp only [broadcast, List.mem_map, List.mem_filter] at hq
    obtain ⟨c, ⟨hcm, hcs⟩, rfl⟩ := hq
    intro hid
    have : c = broken := List.inj_on_of_nodup_map hnd hcm hb hid
    subst this
    simp only [decide_eq_true_eq] at hcs
    exact hs hcs
  · intro o ho hopen
    simp only [broadcast, List.mem_map]
    exact ⟨o, List.mem_filter.mpr ⟨ho, by simp [hopen]⟩, rfl⟩

/-- C2 amended-claim witness: two observers, one CLOSED, one OPEN. -/
theorem broadcast_isolation_witness :
    ((⟨0, .CLOSED⟩ : Observer) ∈ ([⟨0, .CLOSED⟩, ⟨1, .OPEN⟩] : Registry) ∧
     (⟨0, .CLOSED⟩ : Observer).readyState ≠ .OPEN ∧
     (([⟨0, .CLOSED⟩, ⟨1, .OPEN⟩] : Registry).map Observer.id).Nodup) ∧
    ((broadcast [⟨0, .CLOSED⟩, ⟨1, .OPEN⟩] Json.null).registry =
       [⟨0, .CLOSED⟩, ⟨1, .OPEN⟩] ∧
     (⟨0, .CLOSED⟩ : Observer) ∈ (broadcast [⟨0, .CLOSED⟩, ⟨1, .OPEN⟩] Json.null).registry ∧
     (∀ q ∈ (broadcast [⟨0, .CLOSED⟩, ⟨1, .OPEN⟩] Json.null).sends,
        q.1 ≠ (⟨0, .CLOSED⟩ : Observer).id) ∧
     (∀ o ∈ ([⟨0, .CLOSED⟩, ⟨1, .OPEN⟩] : Registry), o.readyState = .OPEN →
        (o.id, (telemetryMessage Json.null).stringify) ∈
          (broadcast [⟨0, .CLOSED⟩, ⟨1, .OPEN⟩] Json.null).sends)) :=
  ⟨⟨by decide, by decide, by decide⟩,
   broadcast_isolation [⟨0, .CLOSED⟩, ⟨1, .OPEN⟩] Json.null ⟨0, .CLOSED⟩
     (by decide) (by decide) (by decide)⟩

end MissionControl

namespace MissionControl

/-! ### C6 -/

/-- C6: every envelope the ingest path hands to `broadcast` is an object
whose `agentId`, `status` and `timestamp` are all present, truthy, and in
particular not the empty string.  (`hn` records that
`new Date().toISOString()` is never the empty string.) -/
theorem envelope_invariant (registry : Registry) (parsed : Option Json)
    (now : String) (hn : now ≠ "") (env : Json)
    (h : (handleTelemetry registry parsed now).broadcastArg = some env) :
    ∃ fields, env = .obj fields ∧
      (∃ a, lookupField fields "agentId" = some a ∧ a.truthy = true ∧ a ≠ .str "") ∧
      (∃ s, lookupField fields "status" = some s ∧ s.truthy = true ∧ s ≠ .str "") ∧
      (∃ t, lookupField fields "timestamp" = some t ∧ t.truthy = true ∧ t ≠ .str "") := by
  cases parsed with
  | none => simp [handleTelemetry] at h
  | some d =>
      cases hc : schemaCheck d with
      | error e => simp [handleTelemetry, hc] at h
      | ok b =>
          cases b with
          | false => simp [handleTelemetry, hc] at h
          | true =>
              obtain ⟨fs, rfl, ha, hst⟩ := schemaCheck_ok_true hc
              simp only [handleTelemetry, hc, normalizeJson, Option.some.injEq] at h
              subst h
              refine ⟨normalizeRecord fs now, rfl, ?_, ?_, ?_⟩
              · obtain ⟨a, hla⟩ : ∃ a, lookupField fs "agentId" = some a := by
                  cases hx : lookupField fs "agentId" with
                  | none => rw [hx] at ha; simp [truthyOpt] at ha
                  | some a => exact ⟨a, rfl⟩
                have hat : a.truthy = true := by
                  rw [hla] at ha; simpa [truthyOpt] using ha
                refine ⟨a, ?_, hat, truthy_ne_empty hat⟩
                rw [lookupField_normalizeRecord_ne fs now "agentId" (by simp), hla]
              · obtain ⟨s, hls⟩ : ∃ s, lookupField fs "status" = some s := by
                  cases hx : lookupField fs "status" with
                  | none => rw [hx] at hst; simp [truthyOpt] at hst
                  | some s => exact ⟨s, rfl⟩
                have hstt : s.truthy = true := by
                  rw [hls] at hst; simpa [truthyOpt] using hst
                refine ⟨s, ?_, hstt, truthy_ne_empty hstt⟩
                rw [lookupField_normalizeRecord_ne fs now "status" (by simp), hls]
              · obtain ⟨t, hlt, htt⟩ := lookupField_normalizeRecord_timestamp fs now hn
                exact ⟨t, hlt, htt, truthy_ne_empty htt⟩

/-- C6 witness at a concrete submission without a timestamp. -/
theorem envelope_invariant_witness :
    (("T" : String) ≠ "" ∧
     (handleTelemetry [] (some (.obj [("agentId", Json.str "a"),
        ("status", Json.str "s")])) "T").broadcastArg =
       some (.obj [("agentId", Json.str "a"), ("status", Json.str "s"),
                   ("timestamp", Json.str "T")])) ∧
    (∃ fields, (Json.obj [("agentId", Json.str "a"), ("status", Json.str "s"),
        ("timestamp", Json.str "T")]) = .obj fields ∧
      (∃ a, lookupField fields "agentId" = some a ∧ a.truthy = true ∧ a ≠ .str "") ∧
      (∃ s, lookupField fields "status" = some s ∧ s.truthy = true ∧ s ≠ .str "") ∧
      (∃ t, lookupField fields "timestamp" = some t ∧ t.truthy = true ∧ t ≠ .str "")) :=
  ⟨⟨by simp, rfl⟩,
   envelope_invariant [] (some (.obj [("agentId", Json.str "a"),
     ("status", Json.str "s")])) "T" (by simp)
     (.obj [("agentId", Json.str "a"), ("status", Json.str "s"),
            ("timestamp", Json.str "T")]) rfl⟩

/-! ### C7 -/

/-- C7: one `broadcast` call serializes the envelope once — every
transport hand-off carries the identical serialized text — and hands it
exactly once to each registered OPEN observer and never to a non-OPEN one
(`wss.clients` is a set, so observer identities are duplicate-free). -/
theorem broadcast_serialize_once_send_once (registry : Registry) (data : Json)
    (hnd : (registry.map Observer.id).Nodup) :
    (∀ p ∈ (broadcast registry data).sends,
       p.2 = (telemetryMessage data).stringify) ∧
    (∀ o ∈ registry, o.readyState = .OPEN →
       (broadcast registry data).sends.countP (fun p => p.1 == o.id) = 1) ∧
    (∀ o ∈ registry, o.readyState ≠ .OPEN →
       (broadcast registry data).sends.countP (fun p => p.1 == o.id) = 0) := by
  refine ⟨?_, ?_, ?_⟩
  · intro p hp
    simp only [broadcast, List.mem_map] at hp
    obtain ⟨c, _, rfl⟩ := hp
    rfl
  · intro o ho hopen
    simp only [broadcast]
    rw [List.countP_map, List.countP_filter]
    have heq := countP_id_eq_of_nodup registry o
      (fun c => decide (c.readyState = ReadyState.OPEN)) hnd ho
    simp only [Function.comp] at heq ⊢
    rw [heq]
    simp [hopen]
  · intro o ho hclosed
    simp only [broadcast]
    rw [List.countP_map, List.countP_filter]
    have heq := countP_id_eq_of_nodup registry o
      (fun c => decide (c.readyState = ReadyState.OPEN)) hnd ho
    simp only [Function.comp] at heq ⊢
    rw [heq]
    simp [hclosed]

/-- C7 witness: two observers, one OPEN and one CLOSED. -/
theorem broadcast_serialize_once_send_once_witness :
    ((([⟨0, .OPEN⟩, ⟨1, .CLOSED⟩] : Registry).map Observer.id).Nodup) ∧
    ((∀ p ∈ (broadcast [⟨0, .OPEN⟩, ⟨1, .CLOSED⟩] Json.null).sends,
        p.2 = (telemetryMessage Json.null).stringify) ∧
     (∀ o ∈ ([⟨0, .OPEN⟩, ⟨1, .CLOSED⟩] : Registry), o.readyState = .OPEN →
        (broadcast [⟨0, .OPEN⟩, ⟨1, .CLOSED⟩] Json.null).sends.countP
          (fun p => p.1 == o.id) = 1) ∧
     (∀ o ∈ ([⟨0, .OPEN⟩, ⟨1, .CLOSED⟩] : Registry), o.readyState ≠ .OPEN →
        (broadcast [⟨0, .OPEN⟩, ⟨1, .CLOSED⟩] Json.null).sends.countP
          (fun p => p.1 == o.id) = 0)) :=
  ⟨by decide,
   broadcast_serialize_once_send_once [⟨0, .OPEN⟩, ⟨1, .CLOSED⟩] Json.null (by decide)⟩

end MissionControl

namespace MissionControl

/-! ### C9 -/

/-- A message history that starts with one greeting and continues with
TELEMETRY broadcast messages only. -/
def inboxOk (l : List Json) : Prop :=
  ∃ now rest, l = greeting now :: rest ∧
    ∀ m ∈ rest, ∃ env, m = telemetryMessage env

/-- Invariant: every observer ever connected (still live or already gone)
has a well-formed message history. -/
def stateOk (st : ServerState) : Prop :=
  ∀ o : TObserver, o ∈ st.live ∨ o ∈ st.gone → inboxOk o.inbox

theorem stateOk_step (st : ServerState) (e : Event) (h : stateOk st) :
    stateOk (step st e) := by
  cases e with
  | connect now =>
      intro o ho
      rcases ho with ho | ho
      · simp only [step] at ho
        rcases List.mem_append.mp ho with ho' | ho'
        · exact h o (Or.inl ho')
        · rcases List.mem_singleton.mp ho' with rfl
          exact ⟨now, [], rfl, by simp⟩
      · exact h o (Or.inr ho)
  | ingest parsed now =>
      cases he : ingestEnvelope parsed now with
      | none =>
          intro o ho
          apply h
          simpa [step, he] using ho
      | some env =>
          intro o ho
          rcases ho with ho | ho
          · simp only [step, he] at ho
            rcases List.mem_map.mp ho with ⟨o', ho', rfl⟩
            obtain ⟨n0, rest, heq, hrest⟩ := h o' (Or.inl ho')
            by_cases hrs : o'.readyState = .OPEN
            · refine ⟨n0, rest ++ [telemetryMessage env], ?_, ?_⟩
              · simp [deliver, hrs, heq]
              · intro m hm
                rcases List.mem_append.mp hm with hm | hm
                · exact hrest m hm
                · rcases List.mem_singleton.mp hm with rfl
                  exact ⟨env, rfl⟩
            · refine ⟨n0, rest, ?_, hrest⟩
              simpa [deliver, hrs] using heq
          · simp only [step, he] at ho
            exact h o (Or.inr ho)
  | close i =>
      intro o ho
      rcases ho with ho | ho
      · simp only [step] at ho
        exact h o (Or.inl (List.mem_of_mem_filter ho))
      · simp only [step] at ho
        rcases List.mem_append.mp ho with ho' | ho'
        · exact h o (Or.inr ho')
        · rcases List.mem_map.mp ho' with ⟨o', ho'', rfl⟩
          exact h o' (Or.inl (List.mem_of_mem_filter ho''))

theorem stateOk_run (events : List Event) : stateOk (run events) := by
  suffices h : ∀ st, stateOk st → stateOk (events.foldl step st) from
    h startState (fun o ho => by rcases ho with ho | ho <;> cases ho)
  induction events with
  | nil => intro st h; exact h
  | cons e es ih => intro st h; exact ih (step st e) (stateOk_step st e h)

/-- C9: in every event trace, every observer that ever connected has a
message history beginning with exactly one SYSTEM greeting (of shape
`{type: 'SYSTEM', message, timestamp}`), followed only by TELEMETRY
broadcast messages — the greeting precedes any TELEMETRY; and an observer
whose connection is the last event so far has received exactly the one
greeting and nothing else. -/
theorem observer_greeting (events : List Event) :
    (∀ o : TObserver, o ∈ (run events).live ∨ o ∈ (run events).gone →
       (∃ now rest, o.inbox = greeting now :: rest ∧
          isSystemShape (greeting now) = true ∧
          ∀ m ∈ rest, isTelemetryShape m = true) ∧
       o.inbox.countP isSystemShape = 1) ∧
    (∀ now, (run (events ++ [Event.connect now])).live.getLast? =
       some ⟨(run events).nextId, .OPEN, [greeting now]⟩) := by
  constructor
  · intro o ho
    obtain ⟨now, rest, heq, hrest⟩ := stateOk_run events o ho
    have hsys : isSystemShape (greeting now) = true := rfl
    have htel : ∀ m ∈ rest, isTelemetryShape m = true := by
      intro m hm
      obtain ⟨env, rfl⟩ := hrest m hm
      rfl
    refine ⟨⟨now, rest, heq, hsys, htel⟩, ?_⟩
    rw [heq, List.countP_cons]
    have h0 : rest.countP isSystemShape = 0 := by
      rw [List.countP_eq_zero]
      intro m hm
      obtain ⟨env, rfl⟩ := hrest m hm
      simp only [show isSystemShape (telemetryMessage env) = false from rfl]
      simp
    rw [h0, hsys]
    simp
  · intro now
    have hrun : run (events ++ [Event.connect now]) =
        step (run events) (.connect now) := by
      simp [run, List.foldl_append]
    rw [hrun]
    simp only [step]
    exact List.getLast?_concat _

/-- C9 witness: a single connection with no ingest traffic. -/
theorem observer_greeting_witness :
    ((⟨0, .OPEN, [greeting "T0"]⟩ : TObserver) ∈ (run [Event.connect "T0"]).live ∨
     (⟨0, .OPEN, [greeting "T0"]⟩ : TObserver) ∈ (run [Event.connect "T0"]).gone) ∧
    ((∃ now rest,
        (⟨0, .OPEN, [greeting "T0"]⟩ : TObserver).inbox = greeting now :: rest ∧
        isSystemShape (greeting now) = true ∧
        ∀ m ∈ rest, isTelemetryShape m = true) ∧
     (⟨0, .OPEN, [greeting "T0"]⟩ : TObserver).inbox.countP isSystemShape = 1) ∧
    (run ([] ++ [Event.connect "T0"])).live.getLast? =
      some ⟨(run []).nextId, .OPEN, [greeting "T0"]⟩ :=
  ⟨Or.inl (List.mem_singleton.mpr rfl),
   (observer_greeting [Event.connect "T0"]).1 _ (Or.inl (List.mem_singleton.mpr rfl)),
   (observer_greeting []).2 "T0"⟩

end MissionControl
